import Mathlib

/-!
Verification of the Similarity3 Lie-group implementation
(gtsam_unstable/geometry/Similarity3.cpp) and of the expression residual
factor (gtsam_unstable/nonlinear/ExpressionFactor.h), as a shallow
embedding over the real numbers.  Floating-point doubles are modelled by
ℝ; each definition mirrors the corresponding C++ function line by line.
-/

noncomputable section

namespace Sim3

abbrev Vec3 : Type := Fin 3 → ℝ

abbrev Mat3 : Type := Matrix (Fin 3) (Fin 3) ℝ

abbrev Vec7 : Type := Fin 7 → ℝ

/-- gtsam skewSymmetric(wx, wy, wz): the cross-product matrix of a 3-vector. -/
def skewSymmetric (wx wy wz : ℝ) : Mat3 :=
  !![0, -wz, wy; wz, 0, -wx; -wy, wx, 0]

/-- Similarity3 data members (Similarity3.h): rotation R_, translation t_,
scale s_.  The Rot3 member is represented by its 3x3 matrix. -/
@[ext]
structure Similarity3 where
  R : Mat3
  t : Vec3
  s : ℝ

namespace Similarity3

/-- Similarity3() : R_(), t_(), s_(1)  (Similarity3.cpp lines 25-27); identity()
returns exactly this (lines 58-60). -/
def identity : Similarity3 := { R := 1, t := 0, s := 1 }

/-- operator* (Similarity3.cpp lines 61-63):
Similarity3(R_ * T.R_, ((1.0 / T.s_) * t_) + R_ * T.t_, s_ * T.s_). -/
def mul (a b : Similarity3) : Similarity3 :=
  { R := a.R * b.R
    t := (1 / b.s) • a.t + a.R.mulVec b.t
    s := a.s * b.s }

/-- inverse (Similarity3.cpp lines 65-69): Rt = R_.inverse(),
sRt = R_.inverse() * (-s_ * t_), result (Rt, sRt, 1.0 / s_).
Modelled from the spec: Rot3::inverse of an orthonormal rotation is its
transpose (the Rot3 class is outside src). -/
def inverse (a : Similarity3) : Similarity3 :=
  { R := a.R.transpose
    t := a.R.transpose.mulVec ((-a.s) • a.t)
    s := 1 / a.s }

/-- transform_from (Similarity3.cpp lines 71-84): returns R_ * (s_ * p) + t_. -/
def transform_from (a : Similarity3) (p : Vec3) : Vec3 :=
  a.R.mulVec (a.s • p) + a.t

/-- The point action p ↦ s · (R · p + t).  This is not in the source; it is
the spec-side action for which the source's composition rule is an exact
homomorphism, used by the amended claim C1. -/
def scaledAction (a : Similarity3) (p : Vec3) : Vec3 :=
  a.s • (a.R.mulVec p + a.t)

/-- thetasquared = w.transpose() * w  (Similarity3.cpp lines 109 and 137). -/
def thetasquaredOf (w : Vec3) : ℝ :=
  w 0 * w 0 + w 1 * w 1 + w 2 * w 2

/-- theta = sqrt(thetasquared)  (Similarity3.cpp lines 110 and 138). -/
def thetaOf (w : Vec3) : ℝ :=
  Real.sqrt (thetasquaredOf w)

/-- The matrix V computed identically by Logmap (Similarity3.cpp lines
107-123) and Expmap (lines 133-151) from the rotation vector w and the
log-scale lambda.  Every coefficient is the literal source expression; none
of the divisions is guarded in the source. -/
def Vmat (w : Vec3) (lambda : ℝ) : Mat3 :=
  let wx := skewSymmetric (w 0) (w 1) (w 2)
  let lambdasquared := lambda * lambda
  let thetasquared := thetasquaredOf w
  let theta := Real.sqrt thetasquared
  let X := Real.sin theta / theta
  let Y := (1 - Real.cos theta) / thetasquared
  let Z := (1 - X) / thetasquared
  let W := (0.5 - Y) / thetasquared
  let alpha := lambdasquared / (lambdasquared * thetasquared)
  let beta := (Real.exp (-lambda) - 1 + lambda) / lambdasquared
  let gama := Y - lambda * Z
  let mu := (1 - lambda + 0.5 * lambdasquared - Real.exp (-lambda)) /
    (lambdasquared * lambda)
  let upsilon := Z - lambda * W
  let A := (1 - Real.exp (-lambda)) / lambda
  let B := alpha * (beta - gama) + gama
  let C := alpha * (mu - upsilon) + upsilon
  A • (1 : Mat3) + B • wx + C • (wx * wx)

/-- Expmap (Similarity3.cpp lines 131-153): w = v.head(3), u = v.segment(3,3),
lambda = v[6]; returns (Rot3::Expmap(w), V * u, 1.0 / exp(-lambda)).  The
rotation exponential Rot3::Expmap is outside src and is passed in as RotExp. -/
def Expmap (RotExp : Vec3 → Mat3) (v : Vec7) : Similarity3 :=
  let w : Vec3 := ![v 0, v 1, v 2]
  let lambda := v 6
  let u : Vec3 := ![v 3, v 4, v 5]
  { R := RotExp w
    t := (Vmat w lambda).mulVec u
    s := 1 / Real.exp (-lambda) }

/-- Logmap (Similarity3.cpp lines 101-129): w = Rot3::Logmap(R), lambda =
log(s), u = V.inverse() * t; result is (w, u, lambda).  The rotation
logarithm Rot3::Logmap is outside src and is passed in as RotLog. -/
def Logmap (RotLog : Mat3 → Vec3) (a : Similarity3) : Vec7 :=
  let w := RotLog a.R
  let lambda := Real.log a.s
  let u := (Vmat w lambda)⁻¹.mulVec a.t
  ![w 0, w 1, w 2, u 0, u 1, u 2, lambda]

/-- ChartAtOrigin::Retract (Similarity3.cpp lines 155-167): uses the Expmap. -/
def Retract (RotExp : Vec3 → Mat3) (v : Vec7) : Similarity3 :=
  Expmap RotExp v

/-- ChartAtOrigin::Local (Similarity3.cpp lines 169-181): uses the Logmap. -/
def Local (RotLog : Mat3 → Vec3) (a : Similarity3) : Vec7 :=
  Logmap RotLog a

/-- The exact condition under which every division performed in the
coefficient block shared by Expmap and Logmap (X, Y, Z, W, alpha, beta, mu,
A in Similarity3.cpp lines 107-123 and 133-151) has a nonzero denominator:
the denominators are theta, thetasquared, lambdasquared * thetasquared,
lambdasquared, lambdasquared * lambda and lambda, all of which are nonzero
precisely when theta and lambda are. -/
def CoeffDenominatorsNonzero (w : Vec3) (lambda : ℝ) : Prop :=
  thetaOf w ≠ 0 ∧ lambda ≠ 0

/-- Group invariant of the spec: R orthonormal with determinant +1, and s
strictly positive. -/
def IsValid (a : Similarity3) : Prop :=
  a.R * a.R.transpose = 1 ∧ a.R.transpose * a.R = 1 ∧ a.R.det = 1 ∧ 0 < a.s

end Similarity3

end Sim3

namespace EF

/-- Construction-time errors thrown by the ExpressionFactor constructor
(ExpressionFactor.h lines 42-46): noNoiseModel stands for the
std::invalid_argument raised when no noise model is supplied, and
incorrectDimension for the one raised when the noise model dimension
differs from T::dimension. -/
inductive ConstructionError where
  | noNoiseModel : ConstructionError
  | incorrectDimension : ConstructionError
deriving DecidableEq

/-- Modelled from the spec: the noise-model contract consumed by
ExpressionFactor — a declared dimension and the distinguished
"constrained" kind (the noise-model type hierarchy is outside src). -/
structure NoiseModel where
  dim : Nat
  isConstrained : Bool

/-- Modelled from the spec: the constrained variant's unit-weighting
extraction (noiseModel Constrained unit, outside src); it is itself a
constrained model of the same dimension. -/
def NoiseModel.unitWeights (nm : NoiseModel) : NoiseModel :=
  { dim := nm.dim, isConstrained := true }

/-- Modelled from the spec: the manifold-value contract — the intrinsic
dimension T::dimension and measurement.localCoordinates(value). -/
structure ManifoldOps (T : Type) where
  dimension : Nat
  localCoordinates : T → T → List ℝ

/-- Modelled from the spec: the computation-graph expression contract —
involved keys, per-key local dimensions, evaluation at a Values snapshot,
and the Jacobian blocks filled when derivatives are requested; the value
returned is the same in both evaluation modes. -/
structure Expression (Values T Block : Type) where
  keys : List Nat
  dims : List Nat
  value : Values → T
  jacBlocks : Values → List Block

/-- ExpressionFactor data (ExpressionFactor.h lines 32-33) together with
the noise model bound through the NoiseModelFactor base class. -/
structure ExpressionFactor (Values T Block : Type) where
  noiseModel : NoiseModel
  measurement : T
  expression : Expression Values T Block

/-- The ExpressionFactor constructor (ExpressionFactor.h lines 38-47):
throws when no noise model is supplied, then throws when the noise model
dimension differs from T::dimension, and otherwise succeeds. -/
def mkExpressionFactor {Values T Block : Type} (M : ManifoldOps T)
    (noiseModel : Option NoiseModel) (measurement : T)
    (expression : Expression Values T Block) :
    Except ConstructionError (ExpressionFactor Values T Block) :=
  match noiseModel with
  | none => Except.error ConstructionError.noNoiseModel
  | some nm =>
    if nm.dim ≠ M.dimension then
      Except.error ConstructionError.incorrectDimension
    else
      Except.ok { noiseModel := nm, measurement := measurement
                  expression := expression }

/-- unwhitenedError without a Jacobian request (ExpressionFactor.h lines
75-78): measurement_.localCoordinates(expression_.value(x)). -/
def ExpressionFactor.unwhitenedError {Values T Block : Type}
    (M : ManifoldOps T) (f : ExpressionFactor Values T Block)
    (x : Values) : List ℝ :=
  M.localCoordinates f.measurement (f.expression.value x)

/-- unwhitenedError with a Jacobian request (ExpressionFactor.h lines
56-74): the per-key Jacobian blocks are filled by the expression and the
same residual measurement_.localCoordinates(value) is returned. -/
def ExpressionFactor.unwhitenedErrorWithJacobians {Values T Block : Type}
    (M : ManifoldOps T) (f : ExpressionFactor Values T Block)
    (x : Values) : List ℝ × List Block :=
  (M.localCoordinates f.measurement (f.expression.value x),
    f.expression.jacBlocks x)

/-- The linear factor produced by linearize: the ordered keys, the Jacobian
blocks, the right-hand-side column Ab(size()).col(0), and the optional
noise annotation of the JacobianFactor. -/
structure LinearFactor (Block : Type) where
  keys : List Nat
  blocks : List Block
  rhs : List ℝ
  noise : Option NoiseModel

/-- linearize (ExpressionFactor.h lines 99-121): evaluates the expression
with Jacobians, sets the RHS column to the negation of
measurement_.localCoordinates(value), and attaches constrained->unit() as
the noise annotation exactly when the bound noise model dynamic-casts to
noiseModel::Constrained; otherwise the JacobianFactor carries no noise
model. -/
def ExpressionFactor.linearize {Values T Block : Type}
    (M : ManifoldOps T) (f : ExpressionFactor Values T Block)
    (x : Values) : LinearFactor Block :=
  let value := f.expression.value x
  let blocks := f.expression.jacBlocks x
  let rhs := List.map (fun r => -r) (M.localCoordinates f.measurement value)
  if f.noiseModel.isConstrained then
    { keys := f.expression.keys, blocks := blocks, rhs := rhs
      noise := some f.noiseModel.unitWeights }
  else
    { keys := f.expression.keys, blocks := blocks, rhs := rhs
      noise := none }

end EF

/-- C10: the identity element (R = I, t = 0, s = 1) returned by
Similarity3::identity() is a two-sided neutral element for composition:
identity * a = a and a * identity = a, exactly. -/
theorem Sim3.identity_is_two_sided_neutral (a : Sim3.Similarity3) :
    Sim3.Similarity3.mul Sim3.Similarity3.identity a = a ∧
      Sim3.Similarity3.mul a Sim3.Similarity3.identity = a := by
  constructor <;> ext <;>
    simp [Sim3.Similarity3.mul, Sim3.Similarity3.identity, Matrix.one_mulVec,
      Matrix.mulVec_zero]

/-- C4: composition is associative: (a*b)*c = a*(b*c), exactly (hence also
within any floating-point tolerance). -/
theorem Sim3.mul_is_associative (a b c : Sim3.Similarity3) :
    Sim3.Similarity3.mul (Sim3.Similarity3.mul a b) c =
      Sim3.Similarity3.mul a (Sim3.Similarity3.mul b c) := by
  refine Sim3.Similarity3.ext ?_ ?_ ?_
  · exact mul_assoc a.R b.R c.R
  · funext i
    simp only [Sim3.Similarity3.mul, Matrix.mulVec_add, Matrix.mulVec_smul,
      Matrix.mulVec_mulVec, Pi.add_apply, Pi.smul_apply, smul_eq_mul]
    ring
  · exact mul_assoc a.s b.s c.s

/-- C3: inverse computes (Rᵀ, Rᵀ·(−s·t), 1/s), and both a * inverse(a) and
inverse(a) * a equal the identity element exactly (hence within any
floating-point tolerance), for every element with orthonormal R and
nonzero scale. -/
theorem Sim3.inverse_formula_and_two_sided (a : Sim3.Similarity3)
    (h1 : a.R * a.R.transpose = 1) (h2 : a.R.transpose * a.R = 1)
    (hs : a.s ≠ 0) :
    Sim3.Similarity3.inverse a =
      { R := a.R.transpose
        t := a.R.transpose.mulVec ((-a.s) • a.t)
        s := 1 / a.s } ∧
    Sim3.Similarity3.mul a (Sim3.Similarity3.inverse a) =
      Sim3.Similarity3.identity ∧
    Sim3.Similarity3.mul (Sim3.Similarity3.inverse a) a =
      Sim3.Similarity3.identity := by
  refine ⟨rfl, ?_, ?_⟩
  · refine Sim3.Similarity3.ext h1 ?_ ?_
    · show (1 / (1 / a.s)) • a.t +
        a.R.mulVec (a.R.transpose.mulVec ((-a.s) • a.t)) = (0 : Sim3.Vec3)
      rw [one_div_one_div, Matrix.mulVec_mulVec, h1, Matrix.one_mulVec]
      simp
    · show a.s * (1 / a.s) = 1
      field_simp
  · refine Sim3.Similarity3.ext h2 ?_ ?_
    · show (1 / a.s) • (a.R.transpose.mulVec ((-a.s) • a.t)) +
        a.R.transpose.mulVec a.t = (0 : Sim3.Vec3)
      rw [Matrix.mulVec_smul, smul_smul]
      have hc : (1 / a.s) * (-a.s) = -1 := by field_simp
      rw [hc]
      simp
    · show (1 / a.s) * a.s = 1
      field_simp

/-- Witness for C3, at the concrete element (R = I, t = (1,2,3), s = 2). -/
theorem Sim3.inverse_formula_and_two_sided_witness :
    Sim3.Similarity3.mul { R := 1, t := ![1, 2, 3], s := 2 }
      (Sim3.Similarity3.inverse { R := 1, t := ![1, 2, 3], s := 2 }) =
      Sim3.Similarity3.identity ∧
    Sim3.Similarity3.mul
      (Sim3.Similarity3.inverse { R := 1, t := ![1, 2, 3], s := 2 })
      { R := 1, t := ![1, 2, 3], s := 2 } = Sim3.Similarity3.identity :=
  ⟨(Sim3.inverse_formula_and_two_sided { R := 1, t := ![1, 2, 3], s := 2 }
      (by simp) (by simp) (by norm_num)).2.1,
   (Sim3.inverse_formula_and_two_sided { R := 1, t := ![1, 2, 3], s := 2 }
      (by simp) (by simp) (by norm_num)).2.2⟩

/-- Counterexample to C1: with a = (I, 0, 2), b = (I, (1,0,0), 1) and p = 0,
the composed element's transform_from gives (1,0,0) while
a.transform_from(b.transform_from(p)) gives (2,0,0), so the composed
point action does not match function composition of transform_from. -/
theorem Sim3.compose_action_mismatch :
    (Sim3.Similarity3.mul { R := 1, t := 0, s := 2 }
        { R := 1, t := ![1, 0, 0], s := 1 }).transform_from 0 ≠
      Sim3.Similarity3.transform_from { R := 1, t := 0, s := 2 }
        (Sim3.Similarity3.transform_from { R := 1, t := ![1, 0, 0], s := 1 } 0) := by
  intro h
  have h0 := congrFun h 0
  simp [Sim3.Similarity3.mul, Sim3.Similarity3.transform_from,
    Matrix.one_mulVec, Matrix.mulVec_zero, Matrix.smul_cons] at h0

/-- Amended C1: composition computes a*b = (R₁R₂, (1/s₂)·t₁ + R₁t₂, s₁s₂) as
claimed, and the composed element's point action matches function
composition exactly for the action p ↦ s·(R·p + t); for the source's
transform_from(p) = s·R·p + t the match fails in general (see the
counterexample). -/
theorem Sim3.compose_formula_and_scaled_action (a b : Sim3.Similarity3)
    (p : Sim3.Vec3) (hb : b.s ≠ 0) :
    Sim3.Similarity3.mul a b =
      { R := a.R * b.R
        t := (1 / b.s) • a.t + a.R.mulVec b.t
        s := a.s * b.s } ∧
    Sim3.Similarity3.scaledAction (Sim3.Similarity3.mul a b) p =
      Sim3.Similarity3.scaledAction a (Sim3.Similarity3.scaledAction b p) := by
  refine ⟨rfl, ?_⟩
  funext i
  simp only [Sim3.Similarity3.scaledAction, Sim3.Similarity3.mul,
    Matrix.mulVec_add, Matrix.mulVec_smul, Matrix.mulVec_mulVec,
    Pi.add_apply, Pi.smul_apply, smul_eq_mul]
  field_simp
  ring

/-- Witness for the amended C1, at a = (I, (1,2,3), 2), b = (I, (4,5,6), 3),
p = (7,8,9). -/
theorem Sim3.compose_formula_and_scaled_action_witness :
    Sim3.Similarity3.scaledAction
      (Sim3.Similarity3.mul { R := 1, t := ![1, 2, 3], s := 2 }
        { R := 1, t := ![4, 5, 6], s := 3 }) ![7, 8, 9] =
    Sim3.Similarity3.scaledAction { R := 1, t := ![1, 2, 3], s := 2 }
      (Sim3.Similarity3.scaledAction { R := 1, t := ![4, 5, 6], s := 3 }
        ![7, 8, 9]) :=
  (Sim3.compose_formula_and_scaled_action { R := 1, t := ![1, 2, 3], s := 2 }
    { R := 1, t := ![4, 5, 6], s := 3 } ![7, 8, 9] (by norm_num)).2

/-- C6: composition, inversion, Expmap and Retract preserve the group
invariant (orthonormal R with determinant +1, strictly positive s).  The
rotation exponential Rot3::Expmap is outside src; that it yields a proper
rotation matrix is taken as a hypothesis on RotExp, modelled from the spec. -/
theorem Sim3.operations_preserve_invariant (a b : Sim3.Similarity3)
    (RotExp : Sim3.Vec3 → Sim3.Mat3) (v : Sim3.Vec7)
    (ha : Sim3.Similarity3.IsValid a) (hb : Sim3.Similarity3.IsValid b)
    (hexp1 : RotExp ![v 0, v 1, v 2] * (RotExp ![v 0, v 1, v 2]).transpose = 1)
    (hexp2 : (RotExp ![v 0, v 1, v 2]).transpose * RotExp ![v 0, v 1, v 2] = 1)
    (hexp3 : (RotExp ![v 0, v 1, v 2]).det = 1) :
    Sim3.Similarity3.IsValid (Sim3.Similarity3.mul a b) ∧
    Sim3.Similarity3.IsValid (Sim3.Similarity3.inverse a) ∧
    Sim3.Similarity3.IsValid (Sim3.Similarity3.Expmap RotExp v) ∧
    Sim3.Similarity3.IsValid (Sim3.Similarity3.Retract RotExp v) := by
  obtain ⟨ha1, ha2, ha3, ha4⟩ := ha
  obtain ⟨hb1, hb2, hb3, hb4⟩ := hb
  have hexpv : Sim3.Similarity3.IsValid (Sim3.Similarity3.Expmap RotExp v) := by
    refine ⟨hexp1, hexp2, hexp3, ?_⟩
    show (0 : ℝ) < 1 / Real.exp (-v 6)
    positivity
  refine ⟨⟨?_, ?_, ?_, ?_⟩, ⟨?_, ?_, ?_, ?_⟩, hexpv, hexpv⟩
  · show a.R * b.R * (a.R * b.R).transpose = 1
    rw [Matrix.transpose_mul, mul_assoc, ← mul_assoc b.R, hb1, one_mul, ha1]
  · show (a.R * b.R).transpose * (a.R * b.R) = 1
    rw [Matrix.transpose_mul, mul_assoc, ← mul_assoc a.R.transpose, ha2,
      one_mul, hb2]
  · show (a.R * b.R).det = 1
    rw [Matrix.det_mul, ha3, hb3, one_mul]
  · exact mul_pos ha4 hb4
  · show a.R.transpose * a.R.transpose.transpose = 1
    rw [Matrix.transpose_transpose, ha2]
  · show a.R.transpose.transpose * a.R.transpose = 1
    rw [Matrix.transpose_transpose, ha1]
  · show a.R.transpose.det = 1
    rw [Matrix.det_transpose, ha3]
  · show (0 : ℝ) < 1 / a.s
    positivity

/-- Witness for C6 at a = b = identity, RotExp the constant identity
rotation, v = 0. -/
theorem Sim3.operations_preserve_invariant_witness :
    Sim3.Similarity3.IsValid
      (Sim3.Similarity3.mul Sim3.Similarity3.identity Sim3.Similarity3.identity) ∧
    Sim3.Similarity3.IsValid
      (Sim3.Similarity3.inverse Sim3.Similarity3.identity) ∧
    Sim3.Similarity3.IsValid
      (Sim3.Similarity3.Expmap (fun _ => 1) (fun _ => 0)) ∧
    Sim3.Similarity3.IsValid
      (Sim3.Similarity3.Retract (fun _ => 1) (fun _ => 0)) :=
  Sim3.operations_preserve_invariant Sim3.Similarity3.identity
    Sim3.Similarity3.identity (fun _ => 1) (fun _ => 0)
    ⟨by simp [Sim3.Similarity3.identity], by simp [Sim3.Similarity3.identity],
      by simp [Sim3.Similarity3.identity], by norm_num [Sim3.Similarity3.identity]⟩
    ⟨by simp [Sim3.Similarity3.identity], by simp [Sim3.Similarity3.identity],
      by simp [Sim3.Similarity3.identity], by norm_num [Sim3.Similarity3.identity]⟩
    (by simp) (by simp) (by simp)

/-- C2 fails on the code: Expmap and Logmap perform every coefficient
division unconditionally.  At the zero tangent vector (omega = 0, lambda =
0) — an input the claim says is supported — theta is 0 and lambda is 0, so
the source divides sin(theta)/theta = 0/0, (1-cos theta)/theta^2 = 0/0,
(exp(-lambda)-1+lambda)/lambda^2 = 0/0 and so on, which is NaN in IEEE
arithmetic; no limiting value is substituted.  Likewise Logmap at a group
element with s = 1 gets lambda = log 1 = 0.  The last conjunct shows that
even in the total real-division model the X coefficient evaluates to the
junk value 0, not to its continuous limit 1. -/
theorem Sim3.expmap_coefficients_unguarded :
    ¬ Sim3.Similarity3.CoeffDenominatorsNonzero ![(0 : ℝ), 0, 0] 0 ∧
    Sim3.Similarity3.thetaOf ![(0 : ℝ), 0, 0] = 0 ∧
    Real.log Sim3.Similarity3.identity.s = 0 ∧
    Real.sin (Sim3.Similarity3.thetaOf ![(0 : ℝ), 0, 0]) /
      Sim3.Similarity3.thetaOf ![(0 : ℝ), 0, 0] = 0 := by
  have htheta : Sim3.Similarity3.thetaOf ![(0 : ℝ), 0, 0] = 0 := by
    simp [Sim3.Similarity3.thetaOf, Sim3.Similarity3.thetasquaredOf]
  refine ⟨?_, htheta, ?_, ?_⟩
  · intro h
    exact h.2 rfl
  · show Real.log (1 : ℝ) = 0
    exact Real.log_one
  · rw [htheta]
    simp

/-- Helper: the V matrix at omega = 0 and lambda = log 2 is the scalar
matrix ((1 - exp(-log 2)) / log 2) * I, whose determinant is a unit. -/
theorem Sim3.vmat_zero_log_two_isUnit :
    IsUnit (Sim3.Similarity3.Vmat ![(0 : ℝ), 0, 0] (Real.log 2)).det := by
  have hwx : Sim3.skewSymmetric ((![(0 : ℝ), 0, 0]) 0) ((![(0 : ℝ), 0, 0]) 1)
      ((![(0 : ℝ), 0, 0]) 2) = 0 := by
    ext i j
    fin_cases i <;> fin_cases j <;>
      simp [Sim3.skewSymmetric, Matrix.vecHead, Matrix.vecTail]
  have hV : Sim3.Similarity3.Vmat ![(0 : ℝ), 0, 0] (Real.log 2) =
      ((1 - Real.exp (-Real.log 2)) / Real.log 2) • (1 : Sim3.Mat3) := by
    simp only [Sim3.Similarity3.Vmat]
    rw [hwx]
    simp
  rw [hV, Matrix.det_smul, Matrix.det_one, mul_one]
  have hlog : Real.log 2 ≠ 0 := ne_of_gt (Real.log_pos (by norm_num))
  have hexp : Real.exp (-Real.log 2) = (2 : ℝ)⁻¹ := by
    rw [Real.exp_neg, Real.exp_log (by norm_num : (0 : ℝ) < 2)]
  have hc : (1 - Real.exp (-Real.log 2)) / Real.log 2 ≠ 0 := by
    rw [hexp]
    exact div_ne_zero (by norm_num) hlog
  exact (isUnit_iff_ne_zero).mpr (pow_ne_zero _ hc)

/-- C5: Exp and Log are mutually inverse around the identity: for every
tangent vector v, Logmap(Expmap(v)) = v exactly (hence approximately), and
for every group element a with positive scale, Expmap(Logmap(a)) = a
exactly, in exact real arithmetic.  "Near the identity" is expressed by
the hypotheses: the rotation exponential/logarithm (outside src, modelled
from the spec) round-trip on the inputs involved, and the V matrix built
by the source is invertible there. -/
theorem Sim3.exp_log_mutually_inverse
    (RotExp : Sim3.Vec3 → Sim3.Mat3) (RotLog : Sim3.Mat3 → Sim3.Vec3)
    (v : Sim3.Vec7) (a : Sim3.Similarity3)
    (hrot1 : RotLog (RotExp ![v 0, v 1, v 2]) = ![v 0, v 1, v 2])
    (hV1 : IsUnit (Sim3.Similarity3.Vmat ![v 0, v 1, v 2] (v 6)).det)
    (hrot2 : RotExp (RotLog a.R) = a.R)
    (hs : 0 < a.s)
    (hV2 : IsUnit (Sim3.Similarity3.Vmat (RotLog a.R) (Real.log a.s)).det) :
    Sim3.Similarity3.Logmap RotLog (Sim3.Similarity3.Expmap RotExp v) = v ∧
    Sim3.Similarity3.Expmap RotExp (Sim3.Similarity3.Logmap RotLog a) = a := by
  constructor
  · have hlam0 : Real.log (1 / Real.exp (-v 6)) = v 6 := by
      rw [one_div, Real.exp_neg, inv_inv, Real.log_exp]
    have huu : (Sim3.Similarity3.Vmat ![v 0, v 1, v 2] (v 6))⁻¹.mulVec
        ((Sim3.Similarity3.Vmat ![v 0, v 1, v 2] (v 6)).mulVec
          ![v 3, v 4, v 5]) = ![v 3, v 4, v 5] := by
      rw [Matrix.mulVec_mulVec, Matrix.nonsing_inv_mul _ hV1,
        Matrix.one_mulVec]
    simp only [Sim3.Similarity3.Logmap, Sim3.Similarity3.Expmap]
    rw [hrot1, hlam0, huu]
    funext i
    fin_cases i <;> rfl
  · have hw : (![(Sim3.Similarity3.Logmap RotLog a) 0,
        (Sim3.Similarity3.Logmap RotLog a) 1,
        (Sim3.Similarity3.Logmap RotLog a) 2] : Sim3.Vec3) = RotLog a.R := by
      funext i
      fin_cases i <;> rfl
    have hu : (![(Sim3.Similarity3.Logmap RotLog a) 3,
        (Sim3.Similarity3.Logmap RotLog a) 4,
        (Sim3.Similarity3.Logmap RotLog a) 5] : Sim3.Vec3) =
        (Sim3.Similarity3.Vmat (RotLog a.R) (Real.log a.s))⁻¹.mulVec a.t := by
      funext i
      fin_cases i <;> rfl
    have hl : (Sim3.Similarity3.Logmap RotLog a) 6 = Real.log a.s := rfl
    refine Sim3.Similarity3.ext ?_ ?_ ?_
    · show RotExp ![(Sim3.Similarity3.Logmap RotLog a) 0,
        (Sim3.Similarity3.Logmap RotLog a) 1,
        (Sim3.Similarity3.Logmap RotLog a) 2] = a.R
      rw [hw, hrot2]
    · show (Sim3.Similarity3.Vmat
          ![(Sim3.Similarity3.Logmap RotLog a) 0,
            (Sim3.Similarity3.Logmap RotLog a) 1,
            (Sim3.Similarity3.Logmap RotLog a) 2]
          ((Sim3.Similarity3.Logmap RotLog a) 6)).mulVec
          ![(Sim3.Similarity3.Logmap RotLog a) 3,
            (Sim3.Similarity3.Logmap RotLog a) 4,
            (Sim3.Similarity3.Logmap RotLog a) 5] = a.t
      rw [hw, hu, hl, Matrix.mulVec_mulVec, Matrix.mul_nonsing_inv _ hV2,
        Matrix.one_mulVec]
    · show 1 / Real.exp (-(Sim3.Similarity3.Logmap RotLog a) 6) = a.s
      rw [hl, Real.exp_neg, one_div, inv_inv, Real.exp_log hs]

/-- Witness for C5: v = (0,0,0,0,0,0,log 2) and a = (I, (1,2,3), 2), with
the rotation exponential/logarithm instantiated at the identity rotation. -/
theorem Sim3.exp_log_mutually_inverse_witness :
    Sim3.Similarity3.Logmap (fun _ => ![0, 0, 0])
        (Sim3.Similarity3.Expmap (fun _ => 1)
          ![0, 0, 0, 0, 0, 0, Real.log 2]) =
      ![0, 0, 0, 0, 0, 0, Real.log 2] ∧
    Sim3.Similarity3.Expmap (fun _ => 1)
        (Sim3.Similarity3.Logmap (fun _ => ![0, 0, 0])
          { R := 1, t := ![1, 2, 3], s := 2 }) =
      { R := 1, t := ![1, 2, 3], s := 2 } :=
  Sim3.exp_log_mutually_inverse (fun _ => 1) (fun _ => ![0, 0, 0])
    ![0, 0, 0, 0, 0, 0, Real.log 2] { R := 1, t := ![1, 2, 3], s := 2 }
    rfl Sim3.vmat_zero_log_two_isUnit rfl (by norm_num)
    Sim3.vmat_zero_log_two_isUnit

/-- C7: ExpressionFactor construction fails exactly when no noise model is
supplied or when the noise model's declared dimension differs from the
measurement type's intrinsic dimension; in particular a 3-dimensional
noise model against a 7-dimensional measurement type yields the
dimension-mismatch error, and a matching dimension succeeds. -/
theorem EF.construction_fails_iff_dimension_mismatch
    {Values T Block : Type} (M : EF.ManifoldOps T) (m : T)
    (e : EF.Expression Values T Block) (noiseModel : Option EF.NoiseModel) :
    ((∃ f, EF.mkExpressionFactor M noiseModel m e = Except.ok f) ↔
      ∃ nm, noiseModel = some nm ∧ nm.dim = M.dimension) ∧
    EF.mkExpressionFactor M none m e =
      Except.error EF.ConstructionError.noNoiseModel ∧
    (M.dimension = 7 → ∀ nm : EF.NoiseModel, nm.dim = 3 →
      EF.mkExpressionFactor M (some nm) m e =
        Except.error EF.ConstructionError.incorrectDimension) ∧
    (∀ nm : EF.NoiseModel, nm.dim = M.dimension →
      ∃ f, EF.mkExpressionFactor M (some nm) m e = Except.ok f) := by
  refine ⟨?_, rfl, ?_, ?_⟩
  · cases noiseModel with
    | none => simp [EF.mkExpressionFactor]
    | some nm =>
      by_cases h : nm.dim = M.dimension
      · simp [EF.mkExpressionFactor, h]
      · simp [EF.mkExpressionFactor, h]
  · intro hM nm hnm
    simp [EF.mkExpressionFactor, hnm, hM]
  · intro nm hnm
    refine ⟨{ noiseModel := nm, measurement := m, expression := e }, ?_⟩
    simp [EF.mkExpressionFactor, hnm]

/-- Witness for C7: against a 7-dimensional measurement type, a
3-dimensional noise model is rejected with the dimension-mismatch error
and a 7-dimensional one is accepted. -/
theorem EF.construction_fails_iff_dimension_mismatch_witness :
    @EF.mkExpressionFactor Unit Unit Unit
        { dimension := 7, localCoordinates := fun _ _ => [] }
        (some { dim := 3, isConstrained := false }) ()
        { keys := [], dims := [], value := fun _ => (), jacBlocks := fun _ => [] } =
      Except.error EF.ConstructionError.incorrectDimension ∧
    ∃ f, @EF.mkExpressionFactor Unit Unit Unit
        { dimension := 7, localCoordinates := fun _ _ => [] }
        (some { dim := 7, isConstrained := false }) ()
        { keys := [], dims := [], value := fun _ => (), jacBlocks := fun _ => [] } =
      Except.ok f :=
  ⟨(EF.construction_fails_iff_dimension_mismatch
      { dimension := 7, localCoordinates := fun _ _ => [] } ()
      { keys := [], dims := [], value := fun _ => (), jacBlocks := fun _ => [] }
      (some { dim := 3, isConstrained := false })).2.2.1 rfl
      { dim := 3, isConstrained := false } rfl,
   (EF.construction_fails_iff_dimension_mismatch
      { dimension := 7, localCoordinates := fun _ _ => [] } ()
      { keys := [], dims := [], value := fun _ => (), jacBlocks := fun _ => [] }
      (some { dim := 7, isConstrained := false })).2.2.2
      { dim := 7, isConstrained := false } rfl⟩

/-- C8: for every Values snapshot, the right-hand-side column produced by
linearize is exactly the negation of unwhitenedError computed without a
Jacobian request. -/
theorem EF.linearize_rhs_is_negated_residual {Values T Block : Type}
    (M : EF.ManifoldOps T) (f : EF.ExpressionFactor Values T Block)
    (x : Values) :
    (EF.ExpressionFactor.linearize M f x).rhs =
      List.map (fun r => -r) (EF.ExpressionFactor.unwhitenedError M f x) := by
  unfold EF.ExpressionFactor.linearize EF.ExpressionFactor.unwhitenedError
  by_cases h : f.noiseModel.isConstrained <;> simp [h]

/-- C9: the linear factor returned by linearize carries the constrained
noise model's unit weighting exactly when the bound noise model is of the
constrained kind, and carries no noise annotation otherwise. -/
theorem EF.linearize_noise_annotation {Values T Block : Type}
    (M : EF.ManifoldOps T) (f : EF.ExpressionFactor Values T Block)
    (x : Values) :
    (f.noiseModel.isConstrained = true →
      (EF.ExpressionFactor.linearize M f x).noise =
        some (EF.NoiseModel.unitWeights f.noiseModel)) ∧
    (f.noiseModel.isConstrained = false →
      (EF.ExpressionFactor.linearize M f x).noise = none) := by
  constructor <;> intro h <;> simp [EF.ExpressionFactor.linearize, h]

/-- Witness for C9: a constrained factor is annotated with the unit
weighting, an unconstrained one carries none. -/
theorem EF.linearize_noise_annotation_witness :
    (@EF.ExpressionFactor.linearize Unit Unit Unit
        { dimension := 7, localCoordinates := fun _ _ => [] }
        { noiseModel := { dim := 7, isConstrained := true }, measurement := ()
          expression := { keys := [], dims := [], value := fun _ => (), jacBlocks := fun _ => [] } } ()).noise =
      some (EF.NoiseModel.unitWeights { dim := 7, isConstrained := true }) ∧
    (@EF.ExpressionFactor.linearize Unit Unit Unit
        { dimension := 7, localCoordinates := fun _ _ => [] }
        { noiseModel := { dim := 7, isConstrained := false }, measurement := ()
          expression := { keys := [], dims := [], value := fun _ => (), jacBlocks := fun _ => [] } } ()).noise = none :=
  ⟨(EF.linearize_noise_annotation
      { dimension := 7, localCoordinates := fun _ _ => [] }
      { noiseModel := { dim := 7, isConstrained := true }, measurement := ()
        expression := { keys := [], dims := [], value := fun _ => (), jacBlocks := fun _ => [] } } ()).1 rfl,
   (EF.linearize_noise_annotation
      { dimension := 7, localCoordinates := fun _ _ => [] }
      { noiseModel := { dim := 7, isConstrained := false }, measurement := ()
        expression := { keys := [], dims := [], value := fun _ => (), jacBlocks := fun _ => [] } } ()).2 rfl⟩
